import Mathlib

/-!
Verification of the storage layer of GoTask_Management.

We shallowly embed the storage backends of the repository:
* the Task record (internal/models),
* the file (JSON) backend (internal/storage/json_storage.go),
* the SQLite backend (sqlite_storage.go),
* the MySQL / PostgreSQL backends (mysql_storage.go, postgres_storage.go, GORM),
* the MongoDB backend,
* the factory NewStorage and ValidateConfig.

Timestamps are modelled as natural numbers; a missing due date is Option.none,
matching the Go pointer field DueDate *time.Time.  Relational/document tables
are modelled as lists of rows in physical (insertion) order; the file backend
persists a list of tasks, and its file system effects are modelled by a small
state of the real file and the sibling temporary file.
-/

namespace GoTask

/-- The Task entity, from internal/models (src/unnamed/part_004):
ID, Title, Done, CreatedAt, DueDate (optional). -/
structure Task where
  id : String
  title : String
  done : Bool
  createdAt : Nat
  dueDate : Option Nat
deriving Repr, DecidableEq

/-- Errors the storage operations return: the "task not found" errors,
primary-key/unique-index violations on create, and I/O or parse failures
of the file backend. -/
inductive StoreErr where
  | notFound
  | uniqueViolation
  | ioError
deriving Repr, DecidableEq

namespace JSON

/-! The file (JSON) backend, internal/storage/json_storage.go.
The parsed file content is a list of tasks.  The pure list-level semantics
of each operation is given first; the file-system effect (load, write the
temporary file, rename) is layered on top. -/

/-- JSONStorage.Create, list level: tasks are loaded, the new task is
appended (no duplicate check), and the list is saved. -/
def create (ts : List Task) (t : Task) : List Task := ts ++ [t]

/-- JSONStorage.GetAll, list level: returns the loaded list as is. -/
def getAll (ts : List Task) : List Task := ts

/-- JSONStorage.GetByID, list level: scans for the first task whose ID
matches and returns it, or the "task not found" error. -/
def getByID (ts : List Task) (id : String) : Except StoreErr Task :=
  match ts.find? (fun t => t.id == id) with
  | some t => .ok t
  | none => .error .notFound

/-- JSONStorage.Update, list level: the loop replaces the first task whose
ID matches in place and saves; if no task matches it returns the
"task not found" error. -/
def update : List Task → Task → Except StoreErr (List Task)
  | [], _ => .error .notFound
  | r :: rs, t =>
    if r.id == t.id then .ok (t :: rs)
    else
      match update rs t with
      | .ok rs' => .ok (r :: rs')
      | .error e => .error e

/-- JSONStorage.Delete, list level: keeps every task whose ID differs,
tracks whether any task matched, and errors with "task not found" when
none did. -/
def delete (ts : List Task) (id : String) : Except StoreErr (List Task) :=
  let filtered := ts.filter (fun t => t.id != id)
  let found := ts.any (fun t => t.id == id)
  if found then .ok filtered else .error .notFound

/-- The file-system state of the backend: the contents of the real path and
of the sibling temporary path (parsed as task lists; none means the file
does not exist / cannot be read or parsed). -/
structure FState where
  real : Option (List Task)
  tmp : Option (List Task)
deriving Repr, DecidableEq

/-- json_storage.go line 140: the temporary path is the real path with
".tmp" appended. -/
def tempFilePath (filepath : String) : String := filepath ++ ".tmp"

/-- Step 3 of save: write the serialized full list to the temporary path.
The real file is untouched. -/
def writeTmp (fs : FState) (ts : List Task) : FState := { fs with tmp := some ts }

/-- Step 4 of save: rename the temporary path over the real path. -/
def renameTmp (fs : FState) : FState :=
  match fs.tmp with
  | some ts => { real := some ts, tmp := none }
  | none => fs

/-- JSONStorage.save: write the whole list to the temporary file, then
rename it over the real path. -/
def save (fs : FState) (ts : List Task) : FState := renameTmp (writeTmp fs ts)

/-- JSONStorage.load: read and parse the real file; a missing or
unparsable file is an I/O / corrupt-store error. -/
def load (fs : FState) : Except StoreErr (List Task) :=
  match fs.real with
  | some ts => .ok ts
  | none => .error .ioError

/-- JSONStorage.Create including persistence: load, append, save.
Returns the new file state and the error, if any. -/
def createFS (fs : FState) (t : Task) : FState × Option StoreErr :=
  match load fs with
  | .error e => (fs, some e)
  | .ok ts => (save fs (create ts t), none)

/-- JSONStorage.Update including persistence: load, replace in place,
save; when no task matches, nothing is saved. -/
def updateFS (fs : FState) (t : Task) : FState × Option StoreErr :=
  match load fs with
  | .error e => (fs, some e)
  | .ok ts =>
    match update ts t with
    | .error e => (fs, some e)
    | .ok ts' => (save fs ts', none)

/-- JSONStorage.Delete including persistence: load, filter, save; when no
task matches, nothing is saved. -/
def deleteFS (fs : FState) (id : String) : FState × Option StoreErr :=
  match load fs with
  | .error e => (fs, some e)
  | .ok ts =>
    match delete ts id with
    | .error e => (fs, some e)
    | .ok ts' => (save fs ts', none)

/-- JSONStorage.GetByID including load. -/
def getByIDFS (fs : FState) (id : String) : Except StoreErr Task :=
  match load fs with
  | .error e => .error e
  | .ok ts => getByID ts id

end JSON

/-- A list of tasks sorted by creation time descending (the ORDER BY
created_at DESC of the MySQL/PostgreSQL/MongoDB GetAll). -/
def sortByCreatedDesc (ts : List Task) : List Task :=
  ts.mergeSort (fun a b => b.createdAt ≤ a.createdAt)

namespace SQLite

/-! The SQLite backend (sqlite_storage.go, src/unnamed/part_000).
The table is a list of rows in physical (rowid / insertion) order; the
primary key on id makes INSERT fail on a duplicate id. -/

/-- SQLiteStorage.Create: a plain INSERT; the PRIMARY KEY on id rejects a
row whose id is already present, otherwise the row is appended. -/
def create (db : List Task) (t : Task) : Except StoreErr (List Task) :=
  if db.any (fun r => r.id == t.id) then .error .uniqueViolation
  else .ok (db ++ [t])

/-- SQLiteStorage.GetAll: SELECT without any ORDER BY clause; rows come
back in table (insertion) order. -/
def getAll (db : List Task) : List Task := db

/-- SQLiteStorage.GetByID: SELECT ... WHERE id = ?; the first matching row
or sql.ErrNoRows (a not-found error). -/
def getByID (db : List Task) (id : String) : Except StoreErr Task :=
  match db.find? (fun r => r.id == id) with
  | some r => .ok r
  | none => .error .notFound

/-- SQLiteStorage.Update: UPDATE tasks SET title = ?, done = ?, due_date =
? WHERE id = ? — note that created_at is NOT in the SET list, so the
stored creation time is preserved; zero affected rows is sql.ErrNoRows. -/
def update (db : List Task) (t : Task) : Except StoreErr (List Task) :=
  if db.any (fun r => r.id == t.id) then
    .ok (db.map (fun r =>
      if r.id == t.id then
        { r with title := t.title, done := t.done, dueDate := t.dueDate }
      else r))
  else .error .notFound

/-- SQLiteStorage.Delete: DELETE ... WHERE id = ?; zero affected rows is
sql.ErrNoRows. -/
def delete (db : List Task) (id : String) : Except StoreErr (List Task) :=
  if db.any (fun r => r.id == id) then .ok (db.filter (fun r => r.id != id))
  else .error .notFound

end SQLite

namespace MySQL

/-! The MySQL backend (mysql_storage.go, GORM). -/

/-- MySQLStorage.Create: gorm Create, an INSERT; the primary key on id
rejects duplicates. -/
def create (db : List Task) (t : Task) : Except StoreErr (List Task) :=
  if db.any (fun r => r.id == t.id) then .error .uniqueViolation
  else .ok (db ++ [t])

/-- MySQLStorage.GetAll: Order("created_at DESC").Find. -/
def getAll (db : List Task) : List Task := sortByCreatedDesc db

/-- MySQLStorage.GetByID: First(&task, "id = ?", id), returning the first
matching row or a not-found error. -/
def getByID (db : List Task) (id : String) : Except StoreErr Task :=
  match db.find? (fun r => r.id == id) with
  | some r => .ok r
  | none => .error .notFound

/-- MySQLStorage.Update: gorm Save(task) — an UPDATE of every column,
the full record, WHERE id matches; zero affected rows is "task not
found". -/
def update (db : List Task) (t : Task) : Except StoreErr (List Task) :=
  if db.any (fun r => r.id == t.id) then
    .ok (db.map (fun r => if r.id == t.id then t else r))
  else .error .notFound

/-- MySQLStorage.Delete: gorm Delete WHERE id = ?; zero affected rows is
"task not found". -/
def delete (db : List Task) (id : String) : Except StoreErr (List Task) :=
  if db.any (fun r => r.id == id) then .ok (db.filter (fun r => r.id != id))
  else .error .notFound

end MySQL

namespace Postgres

/-! The PostgreSQL backend (postgres_storage.go, src/unnamed/part_002,
GORM); operation for operation the same statements as the MySQL
backend. -/

/-- PostgreSQLStorage.Create: gorm Create, an INSERT; the primary key on
id rejects duplicates. -/
def create (db : List Task) (t : Task) : Except StoreErr (List Task) :=
  if db.any (fun r => r.id == t.id) then .error .uniqueViolation
  else .ok (db ++ [t])

/-- PostgreSQLStorage.GetAll: Order("created_at DESC").Find. -/
def getAll (db : List Task) : List Task := sortByCreatedDesc db

/-- PostgreSQLStorage.GetByID: First(&task, "id = ?", id). -/
def getByID (db : List Task) (id : String) : Except StoreErr Task :=
  match db.find? (fun r => r.id == id) with
  | some r => .ok r
  | none => .error .notFound

/-- PostgreSQLStorage.Update: gorm Save(task), full-record UPDATE WHERE id
matches; zero affected rows is "task not found". -/
def update (db : List Task) (t : Task) : Except StoreErr (List Task) :=
  if db.any (fun r => r.id == t.id) then
    .ok (db.map (fun r => if r.id == t.id then t else r))
  else .error .notFound

/-- PostgreSQLStorage.Delete: gorm Delete WHERE id = ?; zero affected rows
is "task not found". -/
def delete (db : List Task) (id : String) : Except StoreErr (List Task) :=
  if db.any (fun r => r.id == id) then .ok (db.filter (fun r => r.id != id))
  else .error .notFound

end Postgres

namespace Mongo

/-! The MongoDB backend.  The collection is a list of documents in
insertion order; the unique index on id rejects duplicate inserts. -/

/-- MongoDBStorage.Create: InsertOne; the unique index on id rejects a
duplicate. -/
def create (db : List Task) (t : Task) : Except StoreErr (List Task) :=
  if db.any (fun r => r.id == t.id) then .error .uniqueViolation
  else .ok (db ++ [t])

/-- MongoDBStorage.GetAll: Find with sort created_at descending. -/
def getAll (db : List Task) : List Task := sortByCreatedDesc db

/-- MongoDBStorage.GetByID: FindOne on the id filter; no matching document
is "task not found". -/
def getByID (db : List Task) (id : String) : Except StoreErr Task :=
  match db.find? (fun r => r.id == id) with
  | some r => .ok r
  | none => .error .notFound

/-- MongoDBStorage.Update: UpdateOne with a dollar-set of the whole task,
keyed by id — replaces the first matching document in full; zero matched
documents is "task not found". -/
def update : List Task → Task → Except StoreErr (List Task)
  | [], _ => .error .notFound
  | r :: rs, t =>
    if r.id == t.id then .ok (t :: rs)
    else
      match update rs t with
      | .ok rs' => .ok (r :: rs')
      | .error e => .error e

/-- MongoDBStorage.Delete: DeleteOne on the id filter — removes the first
matching document; zero deleted documents is "task not found". -/
def delete : List Task → String → Except StoreErr (List Task)
  | [], _ => .error .notFound
  | r :: rs, id =>
    if r.id == id then .ok rs
    else
      match delete rs id with
      | .ok rs' => .ok (r :: rs')
      | .error e => .error e

/-- MongoDBConfig (URI, database, collection, connect and query timeouts
in nanoseconds, as Go time.Duration). -/
structure Config where
  uri : String
  database : String
  collection : String
  connectTimeout : Nat
  queryTimeout : Nat
deriving Repr, DecidableEq

/-- One nanosecond count per second (Go time.Second). -/
def second : Nat := 1000000000

/-- The storage operations of the MongoDB backend. -/
inductive Op where
  | create
  | getAll
  | getByID
  | update
  | delete
deriving Repr, DecidableEq

/-- The timeout each MongoDB operation passes to context.WithTimeout:
hard-coded 5*time.Second for Create/GetByID/Update/Delete and
10*time.Second for GetAll. -/
def opTimeout (cfg : Config) : Op → Nat :=
  fun op =>
    match op with
    | .create => 5 * second
    | .getAll => 10 * second
    | .getByID => 5 * second
    | .update => 5 * second
    | .delete => 5 * second

/-- NewMongoDBStorage bounds connecting and pinging with
context.WithTimeout(..., config.ConnectTimeout). -/
def connectTimeoutUsed (cfg : Config) : Nat := cfg.connectTimeout

end Mongo

namespace Factory

/-! The backend factory: NewStorage and ValidateConfig
(internal/storage/factory.go, lines 478-708 of
src/internal/storage/mysql_storage.go's companion part). -/

/-- PostgreSQLConfig. -/
structure PGConfig where
  host : String
  port : Int
  user : String
  password : String
  dbName : String
  sslMode : String
  timeZone : String
deriving Repr, DecidableEq

/-- MySQLConfig. -/
structure MyConfig where
  host : String
  port : Int
  user : String
  password : String
  dbName : String
  charset : String
  parseTime : Bool
  loc : String
deriving Repr, DecidableEq

/-- StorageConfig: the kind selector (a string, as the Go StorageType) and
every backend-specific setting. -/
structure StorageConfig where
  typ : String
  filePath : String
  host : String
  port : Int
  user : String
  password : String
  dbName : String
  sslMode : String
  timeZone : String
  charset : String
  parseTime : Bool
  loc : String
  uri : String
  collection : String
  connectTimeout : Nat
  queryTimeout : Nat
deriving Repr, DecidableEq

/-- What NewStorage does for a given configuration: construct a file-based
backend directly, or attempt a network connection for a client/server
backend, or report an unsupported storage type. -/
inductive FactoryAction where
  | buildJSON (path : String)
  | buildSQLite (path : String)
  | connectPostgres (cfg : PGConfig)
  | connectMySQL (cfg : MyConfig)
  | connectMongo (cfg : Mongo.Config)
  | errUnsupported (typ : String)
deriving Repr, DecidableEq

/-- NewStorage: a switch on config.Type that directly calls the backend
constructor with the copied settings.  It performs no field validation of
its own. -/
def NewStorage (cfg : StorageConfig) : FactoryAction :=
  match cfg.typ with
  | "json" => .buildJSON cfg.filePath
  | "sqlite" => .buildSQLite cfg.filePath
  | "postgres" =>
    .connectPostgres
      { host := cfg.host, port := cfg.port, user := cfg.user,
        password := cfg.password, dbName := cfg.dbName,
        sslMode := cfg.sslMode, timeZone := cfg.timeZone }
  | "mysql" =>
    .connectMySQL
      { host := cfg.host, port := cfg.port, user := cfg.user,
        password := cfg.password, dbName := cfg.dbName,
        charset := cfg.charset, parseTime := cfg.parseTime,
        loc := cfg.loc }
  | "mongodb" =>
    .connectMongo
      { uri := cfg.uri, database := cfg.dbName,
        collection := cfg.collection,
        connectTimeout := cfg.connectTimeout,
        queryTimeout := cfg.queryTimeout }
  | t => .errUnsupported t

/-- The validation errors ValidateConfig can return, one per distinct
message in the source. -/
inductive ConfigErr where
  | missingFilePath
  | missingHost
  | missingUser
  | missingDBName
  | invalidPort
  | missingURI
  | missingCollection
  | unsupportedType
deriving Repr, DecidableEq

/-- ValidateConfig: checks the required fields per backend kind and
returns a descriptive error, or none when the configuration is valid. -/
def ValidateConfig (cfg : StorageConfig) : Option ConfigErr :=
  match cfg.typ with
  | "json" =>
    if cfg.filePath == "" then some .missingFilePath else none
  | "sqlite" =>
    if cfg.filePath == "" then some .missingFilePath else none
  | "postgres" =>
    if cfg.host == "" then some .missingHost
    else if cfg.user == "" then some .missingUser
    else if cfg.dbName == "" then some .missingDBName
    else if cfg.port ≤ 0 then some .invalidPort
    else none
  | "mysql" =>
    if cfg.host == "" then some .missingHost
    else if cfg.user == "" then some .missingUser
    else if cfg.dbName == "" then some .missingDBName
    else if cfg.port ≤ 0 then some .invalidPort
    else none
  | "mongodb" =>
    if cfg.uri == "" then some .missingURI
    else if cfg.dbName == "" then some .missingDBName
    else if cfg.collection == "" then some .missingCollection
    else none
  | _ => some .unsupportedType

/-- Whether a factory action attempts a connection to a remote backend. -/
def FactoryAction.isConnectAttempt : FactoryAction → Bool
  | .connectPostgres _ => true
  | .connectMySQL _ => true
  | .connectMongo _ => true
  | _ => false

end Factory

/-- A concrete task with no due date. -/
def tA : Task :=
  { id := "t1", title := "Buy milk", done := false, createdAt := 1, dueDate := some 5 }

/-- A concrete replacement for tA: same id, new title/done, later creation
time, no due date. -/
def tB : Task :=
  { id := "t1", title := "Updated", done := true, createdAt := 2, dueDate := none }

/-- A concrete task with another id and a later creation time. -/
def tC : Task :=
  { id := "t2", title := "Other", done := false, createdAt := 2, dueDate := some 9 }

/-- A concrete MySQL configuration whose required host field is empty. -/
def badCfg : Factory.StorageConfig :=
  { typ := "mysql", filePath := "", host := "", port := 3306, user := "root",
    password := "p", dbName := "gotask", sslMode := "disable",
    timeZone := "UTC", charset := "utf8mb4", parseTime := true,
    loc := "Local", uri := "", collection := "",
    connectTimeout := 0, queryTimeout := 0 }

/-- A concrete MongoDB configuration with a 7-second query timeout. -/
def mcfg : Mongo.Config :=
  { uri := "mongodb://localhost:27017", database := "gotask",
    collection := "tasks", connectTimeout := 10 * Mongo.second,
    queryTimeout := 7 * Mongo.second }

/-! ### Helper lemmas -/

theorem findTask_eq_none {ts : List Task} {id : String}
    (h : ∀ r ∈ ts, r.id ≠ id) : ts.find? (fun r => r.id == id) = none := by
  rw [List.find?_eq_none]
  intro x hx
  simpa using h x hx

theorem findTask_append_last {ts : List Task} {t : Task}
    (h : ∀ r ∈ ts, r.id ≠ t.id) :
    (ts ++ [t]).find? (fun r => r.id == t.id) = some t := by
  rw [List.find?_append, findTask_eq_none h]
  simp

theorem anyTask_eq_false {ts : List Task} {id : String}
    (h : ∀ r ∈ ts, r.id ≠ id) : ts.any (fun r => r.id == id) = false := by
  simp only [List.any_eq_false, beq_iff_eq]
  exact h

theorem anyTask_eq_true {ts : List Task} {id : String}
    (h : ∃ r ∈ ts, r.id = id) : ts.any (fun r => r.id == id) = true := by
  simp only [List.any_eq_true, beq_iff_eq]
  exact h

/-- All the keyed backends share one GetByID semantics: the first row
matching the id.  After appending a fresh task it is the one found. -/
theorem getByID_append_fresh {ts : List Task} {t : Task}
    (h : ∀ r ∈ ts, r.id ≠ t.id) :
    (match (ts ++ [t]).find? (fun r => r.id == t.id) with
      | some r => Except.ok r
      | none => Except.error StoreErr.notFound) = (.ok t : Except StoreErr Task) := by
  rw [findTask_append_last h]

/-! ### C2 : create / getByID round trip -/

/-- C2: for every valid Task t whose id is not already stored, after a
successful Create(t), GetByID(t.id) succeeds and returns a Task field-wise
equal to t (id, title, done, createdAt, and dueDate including
presence/absence), for every backend: the file (JSON) backend appends and
GetByID finds the appended record; the SQLite, MySQL, PostgreSQL and
MongoDB backends insert the full row and GetByID returns it. -/
theorem C2_create_roundtrip :
    (∀ (ts : List Task) (t : Task), (∀ r ∈ ts, r.id ≠ t.id) →
      JSON.getByID (JSON.create ts t) t.id = .ok t) ∧
    (∀ (db : List Task) (t : Task), (∀ r ∈ db, r.id ≠ t.id) →
      SQLite.create db t = .ok (db ++ [t]) ∧
      SQLite.getByID (db ++ [t]) t.id = .ok t) ∧
    (∀ (db : List Task) (t : Task), (∀ r ∈ db, r.id ≠ t.id) →
      MySQL.create db t = .ok (db ++ [t]) ∧
      MySQL.getByID (db ++ [t]) t.id = .ok t) ∧
    (∀ (db : List Task) (t : Task), (∀ r ∈ db, r.id ≠ t.id) →
      Postgres.create db t = .ok (db ++ [t]) ∧
      Postgres.getByID (db ++ [t]) t.id = .ok t) ∧
    (∀ (db : List Task) (t : Task), (∀ r ∈ db, r.id ≠ t.id) →
      Mongo.create db t = .ok (db ++ [t]) ∧
      Mongo.getByID (db ++ [t]) t.id = .ok t) := by
  refine ⟨?_, ?_, ?_, ?_, ?_⟩
  · intro ts t h
    unfold JSON.getByID JSON.create
    rw [findTask_append_last h]
  · intro db t h
    refine ⟨?_, ?_⟩
    · unfold SQLite.create
      rw [anyTask_eq_false h]
      simp
    · unfold SQLite.getByID
      rw [findTask_append_last h]
  · intro db t h
    refine ⟨?_, ?_⟩
    · unfold MySQL.create
      rw [anyTask_eq_false h]
      simp
    · unfold MySQL.getByID
      rw [findTask_append_last h]
  · intro db t h
    refine ⟨?_, ?_⟩
    · unfold Postgres.create
      rw [anyTask_eq_false h]
      simp
    · unfold Postgres.getByID
      rw [findTask_append_last h]
  · intro db t h
    refine ⟨?_, ?_⟩
    · unfold Mongo.create
      rw [anyTask_eq_false h]
      simp
    · unfold Mongo.getByID
      rw [findTask_append_last h]

/-- Witness for C2 at the concrete task tA and the empty store. -/
theorem C2_create_roundtrip_witness :
    JSON.getByID (JSON.create [] tA) tA.id = .ok tA ∧
    (SQLite.create [] tA = .ok [tA] ∧ SQLite.getByID [tA] tA.id = .ok tA) ∧
    (Mongo.create [] tA = .ok [tA] ∧ Mongo.getByID [tA] tA.id = .ok tA) := by
  have h : ∀ r ∈ ([] : List Task), r.id ≠ tA.id := by simp
  exact ⟨C2_create_roundtrip.1 [] tA h,
    C2_create_roundtrip.2.1 [] tA h,
    C2_create_roundtrip.2.2.2.2 [] tA h⟩

/-! ### C1 : duplicate-id conflict on Create -/

/-- C1 counterexample: on the file (JSON) backend, starting from the empty
store, Create(tA) succeeds and a second Create of the very same task
succeeds as well (it returns no error), leaving a persisted state with two
records sharing the id "t1" — contradicting the claim that the second
call fails and that no reachable state contains two records with the same
id. -/
theorem C1_counterexample :
    (JSON.createFS { real := some [], tmp := none } tA).2 = none ∧
    (JSON.createFS (JSON.createFS { real := some [], tmp := none } tA).1 tA).2 = none ∧
    (JSON.createFS (JSON.createFS { real := some [], tmp := none } tA).1 tA).1.real =
      some [tA, tA] ∧
    ([tA, tA] : List Task).countP (fun r => r.id == tA.id) = 2 := by
  refine ⟨rfl, rfl, rfl, rfl⟩

/-- C1 amended: the SQLite, MySQL, PostgreSQL and MongoDB backends reject
Create when a record with the same id is already stored (primary key /
unique index) and succeed otherwise; the file (JSON) backend's Create
performs no duplicate check — it loads, appends and saves unconditionally,
so a second Create with an already-stored id also succeeds and the file
backend can reach states holding two records with the same id. -/
theorem C1_amended :
    (∀ (db : List Task) (t : Task), (∃ r ∈ db, r.id = t.id) →
      SQLite.create db t = .error .uniqueViolation) ∧
    (∀ (db : List Task) (t : Task), (∀ r ∈ db, r.id ≠ t.id) →
      SQLite.create db t = .ok (db ++ [t])) ∧
    (∀ (db : List Task) (t : Task), (∃ r ∈ db, r.id = t.id) →
      MySQL.create db t = .error .uniqueViolation) ∧
    (∀ (db : List Task) (t : Task), (∀ r ∈ db, r.id ≠ t.id) →
      MySQL.create db t = .ok (db ++ [t])) ∧
    (∀ (db : List Task) (t : Task), (∃ r ∈ db, r.id = t.id) →
      Postgres.create db t = .error .uniqueViolation) ∧
    (∀ (db : List Task) (t : Task), (∀ r ∈ db, r.id ≠ t.id) →
      Postgres.create db t = .ok (db ++ [t])) ∧
    (∀ (db : List Task) (t : Task), (∃ r ∈ db, r.id = t.id) →
      Mongo.create db t = .error .uniqueViolation) ∧
    (∀ (db : List Task) (t : Task), (∀ r ∈ db, r.id ≠ t.id) →
      Mongo.create db t = .ok (db ++ [t])) ∧
    (∀ (ts : List Task) (t : Task), JSON.create ts t = ts ++ [t]) ∧
    (∀ (fs : JSON.FState) (ts : List Task) (t : Task), JSON.load fs = .ok ts →
      JSON.createFS fs t = (JSON.save fs (ts ++ [t]), none)) := by
  refine ⟨?_, ?_, ?_, ?_, ?_, ?_, ?_, ?_, ?_, ?_⟩
  · intro db t h
    unfold SQLite.create
    rw [anyTask_eq_true h]
    simp
  · intro db t h
    unfold SQLite.create
    rw [anyTask_eq_false h]
    simp
  · intro db t h
    unfold MySQL.create
    rw [anyTask_eq_true h]
    simp
  · intro db t h
    unfold MySQL.create
    rw [anyTask_eq_false h]
    simp
  · intro db t h
    unfold Postgres.create
    rw [anyTask_eq_true h]
    simp
  · intro db t h
    unfold Postgres.create
    rw [anyTask_eq_false h]
    simp
  · intro db t h
    unfold Mongo.create
    rw [anyTask_eq_true h]
    simp
  · intro db t h
    unfold Mongo.create
    rw [anyTask_eq_false h]
    simp
  · intro ts t
    rfl
  · intro fs ts t h
    unfold JSON.createFS
    rw [h]
    rfl

/-- Witness for C1 amended at concrete inputs: a duplicate insert into the
SQLite store [tA] is rejected, a fresh insert into the empty store
succeeds, and the JSON backend appends unconditionally even when the id is
already present. -/
theorem C1_amended_witness :
    SQLite.create [tA] tA = .error .uniqueViolation ∧
    SQLite.create [] tA = .ok [tA] ∧
    Mongo.create [tA] tA = .error .uniqueViolation ∧
    JSON.create [tA] tA = [tA, tA] ∧
    JSON.createFS { real := some [tA], tmp := none } tA =
      (JSON.save { real := some [tA], tmp := none } [tA, tA], none) := by
  refine ⟨C1_amended.1 [tA] tA ⟨tA, by simp⟩,
    C1_amended.2.1 [] tA (by simp),
    C1_amended.2.2.2.2.2.2.1 [tA] tA ⟨tA, by simp⟩,
    C1_amended.2.2.2.2.2.2.2.2.1 [tA] tA,
    C1_amended.2.2.2.2.2.2.2.2.2 { real := some [tA], tmp := none } [tA] tA rfl⟩

/-! ### C3 : update replaces the record -/

/-- A map that rewrites only rows with a given id leaves a list free of
that id unchanged. -/
theorem map_keep_of_ne (f : Task → Task) {db : List Task} {id : String}
    (h : ∀ r ∈ db, r.id ≠ id) :
    db.map (fun r => if r.id == id then f r else r) = db := by
  induction db with
  | nil => rfl
  | cons r rs ih =>
    have hr : ¬ (r.id == id) = true := by simpa using h r (by simp)
    simp only [List.map_cons, if_neg hr]
    rw [ih (fun x hx => h x (List.mem_cons_of_mem _ hx))]

/-- JSON.update on a list free of the target id returns "task not
found". -/
theorem json_update_not_found {ts : List Task} {t : Task}
    (h : ∀ r ∈ ts, r.id ≠ t.id) : JSON.update ts t = .error .notFound := by
  induction ts with
  | nil => rfl
  | cons r rs ih =>
    have hr : ¬ (r.id == t.id) = true := by simpa using h r (by simp)
    simp only [JSON.update, if_neg hr]
    rw [ih (fun x hx => h x (List.mem_cons_of_mem _ hx))]

/-- JSON.update replaces the first matching record; when the only match is
the appended last record the result is the prefix with the replacement
appended. -/
theorem json_update_append {ts : List Task} {t t' : Task}
    (h : ∀ r ∈ ts, r.id ≠ t'.id) (ht : t.id = t'.id) :
    JSON.update (ts ++ [t]) t' = .ok (ts ++ [t']) := by
  induction ts with
  | nil => simp [JSON.update, ht]
  | cons r rs ih =>
    have hr : ¬ (r.id == t'.id) = true := by simpa using h r (by simp)
    simp only [List.cons_append, JSON.update, if_neg hr, List.append_eq]
    rw [ih (fun x hx => h x (List.mem_cons_of_mem _ hx))]

/-- Mongo.update (replace the first matching document in full) computes
the same list as JSON.update. -/
theorem mongo_update_eq_json (ts : List Task) (t : Task) :
    Mongo.update ts t = JSON.update ts t := by
  induction ts with
  | nil => rfl
  | cons r rs ih =>
    simp only [Mongo.update, JSON.update, ih]

/-- The SQLite UPDATE rewrites title, done and due_date; together with a
matching id this is the caller's record with the stored creation time.  -/
theorem sqlite_row_update_eq {t t' : Task} (ht : t'.id = t.id) :
    ({ t with title := t'.title, done := t'.done, dueDate := t'.dueDate } : Task) =
      { t' with createdAt := t.createdAt } := by
  cases t
  cases t'
  simp only [Task.mk.injEq] at ht ⊢
  simp [ht]

/-- C3 counterexample: on the SQLite backend, updating the stored task tA
(createdAt 1, due date set) with tB (same id, createdAt 2, no due date)
clears the due date and replaces title/done, but GetByID then returns a
record whose createdAt is still 1 — not tB as supplied, contradicting
"createdAt exactly as supplied in t' ... for every backend". -/
theorem C3_counterexample :
    SQLite.update [tA] tB = .ok [{ tB with createdAt := tA.createdAt }] ∧
    SQLite.getByID [{ tB with createdAt := tA.createdAt }] tB.id =
      .ok { tB with createdAt := tA.createdAt } ∧
    ({ tB with createdAt := tA.createdAt } : Task) ≠ tB := by
  refine ⟨rfl, rfl, by decide⟩

/-- C3 amended: after Create(t) and a successful Update(t') with t'.id =
t.id, GetByID(t.id) returns t' in full — title, done, dueDate (an absent
t'.dueDate clears a previously set due date) and createdAt exactly as
supplied — on the file (JSON), MySQL, PostgreSQL and MongoDB backends; on
the SQLite backend the UPDATE statement does not set created_at, so
GetByID returns t' with the original record's creation time preserved
(title, done and dueDate are still replaced, an absent dueDate clearing
the stored one).  On every backend, Update with an id that is not stored
fails with the not-found error. -/
theorem C3_amended :
    (∀ (ts : List Task) (t t' : Task), (∀ r ∈ ts, r.id ≠ t.id) → t'.id = t.id →
      JSON.update (JSON.create ts t) t' = .ok (ts ++ [t']) ∧
      JSON.getByID (ts ++ [t']) t.id = .ok t') ∧
    (∀ (db : List Task) (t t' : Task), (∀ r ∈ db, r.id ≠ t.id) → t'.id = t.id →
      MySQL.update (db ++ [t]) t' = .ok (db ++ [t']) ∧
      MySQL.getByID (db ++ [t']) t.id = .ok t') ∧
    (∀ (db : List Task) (t t' : Task), (∀ r ∈ db, r.id ≠ t.id) → t'.id = t.id →
      Postgres.update (db ++ [t]) t' = .ok (db ++ [t']) ∧
      Postgres.getByID (db ++ [t']) t.id = .ok t') ∧
    (∀ (db : List Task) (t t' : Task), (∀ r ∈ db, r.id ≠ t.id) → t'.id = t.id →
      Mongo.update (db ++ [t]) t' = .ok (db ++ [t']) ∧
      Mongo.getByID (db ++ [t']) t.id = .ok t') ∧
    (∀ (db : List Task) (t t' : Task), (∀ r ∈ db, r.id ≠ t.id) → t'.id = t.id →
      SQLite.update (db ++ [t]) t' = .ok (db ++ [{ t' with createdAt := t.createdAt }]) ∧
      SQLite.getByID (db ++ [{ t' with createdAt := t.createdAt }]) t.id =
        .ok { t' with createdAt := t.createdAt }) ∧
    (∀ (ts : List Task) (t : Task), (∀ r ∈ ts, r.id ≠ t.id) →
      JSON.update ts t = .error .notFound) ∧
    (∀ (db : List Task) (t : Task), (∀ r ∈ db, r.id ≠ t.id) →
      SQLite.update db t = .error .notFound) ∧
    (∀ (db : List Task) (t : Task), (∀ r ∈ db, r.id ≠ t.id) →
      MySQL.update db t = .error .notFound) ∧
    (∀ (db : List Task) (t : Task), (∀ r ∈ db, r.id ≠ t.id) →
      Postgres.update db t = .error .notFound) ∧
    (∀ (db : List Task) (t : Task), (∀ r ∈ db, r.id ≠ t.id) →
      Mongo.update db t = .error .notFound) := by
  have hfresh : ∀ (db : List Task) (t t' : Task), (∀ r ∈ db, r.id ≠ t.id) →
      t'.id = t.id → ∀ r ∈ db, r.id ≠ t'.id := by
    intro db t t' h ht r hr
    rw [ht]
    exact h r hr
  have hany : ∀ (db : List Task) (t t' : Task), t'.id = t.id →
      (db ++ [t]).any (fun r => r.id == t'.id) = true := by
    intro db t t' ht
    apply anyTask_eq_true
    exact ⟨t, by simp, ht.symm⟩
  have hgorm : ∀ (db : List Task) (t t' : Task), (∀ r ∈ db, r.id ≠ t.id) →
      t'.id = t.id →
      (db ++ [t]).map (fun r => if r.id == t'.id then t' else r) = db ++ [t'] := by
    intro db t t' h ht
    rw [List.map_append, map_keep_of_ne (fun _ => t') (hfresh db t t' h ht)]
    simp [ht]
  have hfind : ∀ (db : List Task) (t t' : Task), (∀ r ∈ db, r.id ≠ t.id) →
      t'.id = t.id →
      (match (db ++ [t']).find? (fun r => r.id == t.id) with
        | some r => Except.ok r
        | none => Except.error StoreErr.notFound) = (.ok t' : Except StoreErr Task) := by
    intro db t t' h ht
    rw [show t.id = t'.id from ht.symm]
    rw [findTask_append_last (hfresh db t t' h ht)]
  refine ⟨?_, ?_, ?_, ?_, ?_, ?_, ?_, ?_, ?_, ?_⟩
  · intro ts t t' h ht
    exact ⟨json_update_append (hfresh ts t t' h ht) ht.symm, hfind ts t t' h ht⟩
  · intro db t t' h ht
    refine ⟨?_, hfind db t t' h ht⟩
    unfold MySQL.update
    rw [hany db t t' ht, hgorm db t t' h ht]
    simp
  · intro db t t' h ht
    refine ⟨?_, hfind db t t' h ht⟩
    unfold Postgres.update
    rw [hany db t t' ht, hgorm db t t' h ht]
    simp
  · intro db t t' h ht
    refine ⟨?_, hfind db t t' h ht⟩
    rw [mongo_update_eq_json]
    exact json_update_append (hfresh db t t' h ht) ht.symm
  · intro db t t' h ht
    have hrec : ({ t' with createdAt := t.createdAt } : Task).id = t.id := ht
    have hfresh' : ∀ r ∈ db, r.id ≠ ({ t' with createdAt := t.createdAt } : Task).id :=
      fun r hr => by
        rw [hrec]
        exact h r hr
    refine ⟨?_, ?_⟩
    · unfold SQLite.update
      rw [hany db t t' ht, List.map_append,
        map_keep_of_ne _ (hfresh db t t' h ht)]
      simp only [List.map_cons, List.map_nil]
      rw [show (t.id == t'.id) = true by simp [ht]]
      simp only [if_true]
      rw [sqlite_row_update_eq ht]
    · unfold SQLite.getByID
      rw [show t.id = ({ t' with createdAt := t.createdAt } : Task).id from hrec.symm]
      rw [findTask_append_last hfresh']
  · intro ts t h
    exact json_update_not_found h
  · intro db t h
    unfold SQLite.update
    rw [anyTask_eq_false h]
    simp
  · intro db t h
    unfold MySQL.update
    rw [anyTask_eq_false h]
    simp
  · intro db t h
    unfold Postgres.update
    rw [anyTask_eq_false h]
    simp
  · intro db t h
    rw [mongo_update_eq_json]
    exact json_update_not_found h

/-- Witness for C3 amended: concrete create-then-update round trips on the
JSON and SQLite backends at tasks tA (stored) and tB (replacement with the
same id), plus a not-found update of the empty store. -/
theorem C3_amended_witness :
    (JSON.update (JSON.create [] tA) tB = .ok [tB] ∧
      JSON.getByID [tB] tA.id = .ok tB) ∧
    (SQLite.update [tA] tB = .ok [{ tB with createdAt := tA.createdAt }] ∧
      SQLite.getByID [{ tB with createdAt := tA.createdAt }] tA.id =
        .ok { tB with createdAt := tA.createdAt }) ∧
    JSON.update [] tA = .error .notFound ∧
    Mongo.update [] tA = .error .notFound := by
  have h : ∀ r ∈ ([] : List Task), r.id ≠ tA.id := by simp
  have ht : tB.id = tA.id := rfl
  refine ⟨C3_amended.1 [] tA tB h ht, ?_, C3_amended.2.2.2.2.2.1 [] tA h,
    C3_amended.2.2.2.2.2.2.2.2.2 [] tA h⟩
  have h1 : ∀ r ∈ ([] : List Task), r.id ≠ tA.id := by simp
  simpa using C3_amended.2.2.2.2.1 [] tA tB h1 ht

/-! ### C4 : delete then not-found -/

/-- Every record surviving the delete filter has a different id. -/
theorem filter_no_id {ts : List Task} {id : String} :
    ∀ r ∈ ts.filter (fun r => r.id != id), r.id ≠ id := by
  intro r hr
  have h2 := (List.mem_filter.mp hr).2
  simpa using h2

/-- A successful JSON delete returns exactly the filtered list. -/
theorem json_delete_ok {ts ts' : List Task} {id : String}
    (h : JSON.delete ts id = .ok ts') :
    ts' = ts.filter (fun r => r.id != id) := by
  simp only [JSON.delete] at h
  split at h
  · injection h with h
    exact h.symm
  · cases h

/-- JSON delete of an id nowhere in the list fails with not-found. -/
theorem json_delete_not_found {ts : List Task} {id : String}
    (h : ∀ r ∈ ts, r.id ≠ id) : JSON.delete ts id = .error .notFound := by
  simp only [JSON.delete, anyTask_eq_false h]
  rfl

/-- The MySQL delete computes the same result as the SQLite delete. -/
theorem mysql_delete_eq_sqlite : MySQL.delete = SQLite.delete := rfl

/-- The PostgreSQL delete computes the same result as the SQLite
delete. -/
theorem postgres_delete_eq_sqlite : Postgres.delete = SQLite.delete := rfl

/-- A successful SQLite delete returns exactly the filtered table. -/
theorem sqlite_delete_ok {db db' : List Task} {id : String}
    (h : SQLite.delete db id = .ok db') :
    db' = db.filter (fun r => r.id != id) := by
  simp only [SQLite.delete] at h
  split at h
  · injection h with h
    exact h.symm
  · cases h

/-- SQLite delete of an id matching no row affects zero rows and fails. -/
theorem sqlite_delete_not_found {db : List Task} {id : String}
    (h : ∀ r ∈ db, r.id ≠ id) : SQLite.delete db id = .error .notFound := by
  simp only [SQLite.delete, anyTask_eq_false h]
  rfl

/-- SQLite getByID fails on a table with no matching row. -/
theorem sqlite_getByID_not_found {db : List Task} {id : String}
    (h : ∀ r ∈ db, r.id ≠ id) : SQLite.getByID db id = .error .notFound := by
  unfold SQLite.getByID
  rw [findTask_eq_none h]

/-- Mongo DeleteOne of an id matching no document fails with
not-found. -/
theorem mongo_delete_not_found {db : List Task} {id : String}
    (h : ∀ r ∈ db, r.id ≠ id) : Mongo.delete db id = .error .notFound := by
  induction db with
  | nil => rfl
  | cons r rs ih =>
    have hr : ¬ (r.id == id) = true := by simpa using h r (by simp)
    simp only [Mongo.delete, if_neg hr]
    rw [ih (fun x hx => h x (List.mem_cons_of_mem _ hx))]

/-- On a collection with pairwise-distinct ids (the invariant the unique
index maintains), a successful Mongo DeleteOne removes the only matching
document: no survivor carries the id. -/
theorem mongo_delete_ok_no_id {db db' : List Task} {id : String}
    (hp : List.Pairwise (fun a b : Task => a.id ≠ b.id) db)
    (h : Mongo.delete db id = .ok db') : ∀ r ∈ db', r.id ≠ id := by
  induction db generalizing db' with
  | nil => cases h
  | cons r rs ih =>
    rw [List.pairwise_cons] at hp
    by_cases hr : (r.id == id) = true
    · have hid : r.id = id := by simpa using hr
      simp only [Mongo.delete, if_pos hr] at h
      injection h with h
      subst h
      intro x hx
      have hne := hp.1 x hx
      rw [hid] at hne
      exact fun hxe => hne hxe.symm
    · simp only [Mongo.delete, if_neg hr] at h
      split at h
      · rename_i rs' hrs'
        injection h with h
        subst h
        intro x hx
        rcases List.mem_cons.mp hx with hxr | hxs
        · subst hxr
          simpa using hr
        · exact ih hp.2 hrs' x hxs
      · cases h

/-- C4: for every backend and every stored id, after Delete(id) succeeds,
GetByID(id) fails with the not-found error and a second Delete(id) also
fails with not-found; Delete of an id that was never stored fails with
not-found.  (For MongoDB, whose DeleteOne removes a single document, the
statement uses the unique-index invariant that stored ids are pairwise
distinct.) -/
theorem C4_delete_then_not_found :
    (∀ (ts : List Task) (id : String) (ts' : List Task),
      JSON.delete ts id = .ok ts' →
      JSON.getByID ts' id = .error .notFound ∧
      JSON.delete ts' id = .error .notFound) ∧
    (∀ (ts : List Task) (id : String), (∀ r ∈ ts, r.id ≠ id) →
      JSON.delete ts id = .error .notFound) ∧
    (∀ (db : List Task) (id : String) (db' : List Task),
      SQLite.delete db id = .ok db' →
      SQLite.getByID db' id = .error .notFound ∧
      SQLite.delete db' id = .error .notFound) ∧
    (∀ (db : List Task) (id : String), (∀ r ∈ db, r.id ≠ id) →
      SQLite.delete db id = .error .notFound) ∧
    (∀ (db : List Task) (id : String) (db' : List Task),
      MySQL.delete db id = .ok db' →
      MySQL.getByID db' id = .error .notFound ∧
      MySQL.delete db' id = .error .notFound) ∧
    (∀ (db : List Task) (id : String), (∀ r ∈ db, r.id ≠ id) →
      MySQL.delete db id = .error .notFound) ∧
    (∀ (db : List Task) (id : String) (db' : List Task),
      Postgres.delete db id = .ok db' →
      Postgres.getByID db' id = .error .notFound ∧
      Postgres.delete db' id = .error .notFound) ∧
    (∀ (db : List Task) (id : String), (∀ r ∈ db, r.id ≠ id) →
      Postgres.delete db id = .error .notFound) ∧
    (∀ (db : List Task) (id : String) (db' : List Task),
      List.Pairwise (fun a b : Task => a.id ≠ b.id) db →
      Mongo.delete db id = .ok db' →
      Mongo.getByID db' id = .error .notFound ∧
      Mongo.delete db' id = .error .notFound) ∧
    (∀ (db : List Task) (id : String), (∀ r ∈ db, r.id ≠ id) →
      Mongo.delete db id = .error .notFound) := by
  refine ⟨?_, ?_, ?_, ?_, ?_, ?_, ?_, ?_, ?_, fun db id h => mongo_delete_not_found h⟩
  · intro ts id ts' h
    have hts' := json_delete_ok h
    subst hts'
    refine ⟨?_, json_delete_not_found filter_no_id⟩
    unfold JSON.getByID
    rw [findTask_eq_none filter_no_id]
  · intro ts id h
    exact json_delete_not_found h
  · intro db id db' h
    have hdb' := sqlite_delete_ok h
    subst hdb'
    exact ⟨sqlite_getByID_not_found filter_no_id,
      sqlite_delete_not_found filter_no_id⟩
  · intro db id h
    exact sqlite_delete_not_found h
  · intro db id db' h
    rw [mysql_delete_eq_sqlite] at h
    have hdb' := sqlite_delete_ok h
    subst hdb'
    rw [mysql_delete_eq_sqlite]
    exact ⟨sqlite_getByID_not_found filter_no_id,
      sqlite_delete_not_found filter_no_id⟩
  · intro db id h
    rw [mysql_delete_eq_sqlite]
    exact sqlite_delete_not_found h
  · intro db id db' h
    rw [postgres_delete_eq_sqlite] at h
    have hdb' := sqlite_delete_ok h
    subst hdb'
    rw [postgres_delete_eq_sqlite]
    exact ⟨sqlite_getByID_not_found filter_no_id,
      sqlite_delete_not_found filter_no_id⟩
  · intro db id h
    rw [postgres_delete_eq_sqlite]
    exact sqlite_delete_not_found h
  · intro db id db' hp h
    have hno := mongo_delete_ok_no_id hp h
    refine ⟨?_, mongo_delete_not_found hno⟩
    unfold Mongo.getByID
    rw [findTask_eq_none hno]

/-- Witness for C4 at the concrete store [tA]: deleting "t1" succeeds with
the empty store; the theorem then yields not-found for the lookup and the
second delete; deleting the never-stored id "zz" fails. -/
theorem C4_delete_then_not_found_witness :
    (JSON.getByID [] "t1" = .error .notFound ∧
      JSON.delete [] "t1" = .error .notFound) ∧
    (SQLite.getByID [] "t1" = .error .notFound ∧
      SQLite.delete [] "t1" = .error .notFound) ∧
    (Mongo.getByID [] "t1" = .error .notFound ∧
      Mongo.delete [] "t1" = .error .notFound) ∧
    JSON.delete [tA] "zz" = .error .notFound := by
  refine ⟨C4_delete_then_not_found.1 [tA] "t1" [] rfl,
    C4_delete_then_not_found.2.2.1 [tA] "t1" [] rfl,
    C4_delete_then_not_found.2.2.2.2.2.2.2.2.1 [tA] "t1" []
      (by simp) rfl,
    C4_delete_then_not_found.2.1 [tA] "zz" (by decide)⟩

/-! ### C5 : atomic write through the temporary file -/

/-- C5: every mutating operation of the file backend persists by
serializing the full in-memory list, writing it to the sibling temporary
path (the real path with ".tmp" appended) and renaming that path over the
real one; after a successful mutation the temporary file does not exist
and the real file holds the full new list, while a failure before the
rename leaves the original file's contents unchanged. -/
theorem C5_atomic_save :
    (∀ p : String, JSON.tempFilePath p = p ++ ".tmp") ∧
    (∀ (fs : JSON.FState) (ts : List Task),
      JSON.save fs ts = JSON.renameTmp (JSON.writeTmp fs ts)) ∧
    (∀ (fs : JSON.FState) (ts : List Task), (JSON.writeTmp fs ts).real = fs.real) ∧
    (∀ (fs : JSON.FState) (ts : List Task),
      (JSON.save fs ts).tmp = none ∧ (JSON.save fs ts).real = some ts) ∧
    (∀ (fs : JSON.FState) (t : Task) (ts : List Task), JSON.load fs = .ok ts →
      JSON.createFS fs t = (JSON.save fs (JSON.create ts t), none)) ∧
    (∀ (fs : JSON.FState) (t : Task) (ts ts' : List Task),
      JSON.load fs = .ok ts → JSON.update ts t = .ok ts' →
      JSON.updateFS fs t = (JSON.save fs ts', none)) ∧
    (∀ (fs : JSON.FState) (id : String) (ts ts' : List Task),
      JSON.load fs = .ok ts → JSON.delete ts id = .ok ts' →
      JSON.deleteFS fs id = (JSON.save fs ts', none)) := by
  refine ⟨fun p => rfl, fun fs ts => rfl, fun fs ts => rfl,
    fun fs ts => ⟨rfl, rfl⟩, ?_, ?_, ?_⟩
  · intro fs t ts h
    unfold JSON.createFS
    rw [h]
  · intro fs t ts ts' h hu
    unfold JSON.updateFS
    rw [h]
    simp only [hu]
  · intro fs id ts ts' h hd
    unfold JSON.deleteFS
    rw [h]
    simp only [hd]

/-- Witness for C5: a concrete create, update and delete against the
persisted store [tA] all go through save (write temporary file, then
rename), and the resulting state has no temporary file. -/
theorem C5_atomic_save_witness :
    JSON.tempFilePath "tasks.json" = "tasks.json.tmp" ∧
    JSON.createFS { real := some [tA], tmp := none } tC =
      (JSON.save { real := some [tA], tmp := none } [tA, tC], none) ∧
    JSON.updateFS { real := some [tA], tmp := none } tB =
      (JSON.save { real := some [tA], tmp := none } [tB], none) ∧
    JSON.deleteFS { real := some [tA], tmp := none } "t1" =
      (JSON.save { real := some [tA], tmp := none } [], none) ∧
    (JSON.save { real := some [tA], tmp := none } [tA, tC]).tmp = none := by
  refine ⟨C5_atomic_save.1 "tasks.json", ?_, ?_, ?_,
    (C5_atomic_save.2.2.2.1 { real := some [tA], tmp := none } [tA, tC]).1⟩
  · exact C5_atomic_save.2.2.2.2.1 { real := some [tA], tmp := none } tC [tA] rfl
  · exact C5_atomic_save.2.2.2.2.2.1 { real := some [tA], tmp := none } tB [tA] [tB] rfl rfl
  · exact C5_atomic_save.2.2.2.2.2.2 { real := some [tA], tmp := none } "t1" [tA] [] rfl rfl

/-! ### C9 : failed Update/Delete do not rewrite the store -/

/-- C9: on the file backend, whenever Update or Delete returns the
not-found error (no stored record has the given id), nothing is saved:
the persisted state is exactly what it was before the call; conversely,
when the loaded list has no record with the target id, the operation
returns (unchanged state, not-found). -/
theorem C9_failed_mutation_frame :
    (∀ (fs : JSON.FState) (t : Task),
      (JSON.updateFS fs t).2 = some .notFound → (JSON.updateFS fs t).1 = fs) ∧
    (∀ (fs : JSON.FState) (id : String),
      (JSON.deleteFS fs id).2 = some .notFound → (JSON.deleteFS fs id).1 = fs) ∧
    (∀ (fs : JSON.FState) (ts : List Task) (t : Task),
      JSON.load fs = .ok ts → (∀ r ∈ ts, r.id ≠ t.id) →
      JSON.updateFS fs t = (fs, some .notFound)) ∧
    (∀ (fs : JSON.FState) (ts : List Task) (id : String),
      JSON.load fs = .ok ts → (∀ r ∈ ts, r.id ≠ id) →
      JSON.deleteFS fs id = (fs, some .notFound)) := by
  refine ⟨?_, ?_, ?_, ?_⟩
  · intro fs t h
    unfold JSON.updateFS at h ⊢
    cases hl : JSON.load fs with
    | error e => simp [hl]
    | ok ts =>
      simp only [hl] at h ⊢
      cases hu : JSON.update ts t with
      | error e => simp [hu]
      | ok ts' =>
        simp [hu] at h
  · intro fs id h
    unfold JSON.deleteFS at h ⊢
    cases hl : JSON.load fs with
    | error e => simp [hl]
    | ok ts =>
      simp only [hl] at h ⊢
      cases hd : JSON.delete ts id with
      | error e => simp [hd]
      | ok ts' =>
        simp [hd] at h
  · intro fs ts t h hfree
    unfold JSON.updateFS
    simp only [h, json_update_not_found hfree]
  · intro fs ts id h hfree
    unfold JSON.deleteFS
    simp only [h, json_delete_not_found hfree]

/-- Witness for C9: updating or deleting the missing id "zz" in the
persisted store [tA] returns not-found and leaves the state exactly as it
was. -/
theorem C9_failed_mutation_frame_witness :
    JSON.updateFS { real := some [tA], tmp := none } tC =
      ({ real := some [tA], tmp := none }, some .notFound) ∧
    JSON.deleteFS { real := some [tA], tmp := none } "zz" =
      ({ real := some [tA], tmp := none }, some .notFound) ∧
    (JSON.updateFS { real := some [tA], tmp := none } tC).1 =
      { real := some [tA], tmp := none } := by
  refine ⟨C9_failed_mutation_frame.2.2.1 { real := some [tA], tmp := none } [tA] tC rfl
      (by decide),
    C9_failed_mutation_frame.2.2.2 { real := some [tA], tmp := none } [tA] "zz" rfl
      (by decide),
    C9_failed_mutation_frame.1 { real := some [tA], tmp := none } tC (by decide)⟩

/-! ### C10 : frame effect of the file-backend mutations -/

/-- A successful JSON update finds a matching record and replaces the
first one, at index findIdx, in place. -/
theorem json_update_ok {ts ts' : List Task} {t : Task}
    (h : JSON.update ts t = .ok ts') :
    ts.any (fun r => r.id == t.id) = true ∧
    ts' = ts.set (ts.findIdx (fun r => r.id == t.id)) t := by
  induction ts generalizing ts' with
  | nil => cases h
  | cons r rs ih =>
    by_cases hr : (r.id == t.id) = true
    · simp only [JSON.update, if_pos hr] at h
      injection h with h
      subst h
      refine ⟨by simp [List.any_cons, hr], ?_⟩
      rw [List.findIdx_cons]
      simp [hr]
    · simp only [JSON.update, if_neg hr] at h
      split at h
      · rename_i rs' hrs'
        injection h with h
        subst h
        obtain ⟨h1, h2⟩ := ih hrs'
        refine ⟨by simp [List.any_cons, h1], ?_⟩
        rw [List.findIdx_cons]
        simp only [hr, cond_false]
        rw [h2]
        rfl
      · cases h

/-- Replacing the first record with the matching id leaves the records
with other ids untouched and in their original relative order. -/
theorem json_update_filter_frame {ts ts' : List Task} {t : Task}
    (h : JSON.update ts t = .ok ts') :
    ts'.filter (fun r => r.id != t.id) = ts.filter (fun r => r.id != t.id) := by
  induction ts generalizing ts' with
  | nil => cases h
  | cons r rs ih =>
    by_cases hr : (r.id == t.id) = true
    · simp only [JSON.update, if_pos hr] at h
      injection h with h
      subst h
      rw [List.filter_cons, List.filter_cons]
      have h1 : (t.id != t.id) = false := by simp
      have h2 : (r.id != t.id) = false := by simpa using hr
      rw [h1, h2]
      simp
    · simp only [JSON.update, if_neg hr] at h
      split at h
      · rename_i rs' hrs'
        injection h with h
        subst h
        rw [List.filter_cons, List.filter_cons, ih hrs']
      · cases h

/-- C10: every file-backend mutation leaves all records whose id differs
from the targeted id unchanged and in their original relative order:
Create appends the new record at the end, a successful Update replaces the
first record with the matching id in place (at the first matching index),
and a successful Delete removes exactly the records with the matching id,
preserving the order of the rest. -/
theorem C10_mutation_frame :
    (∀ (ts : List Task) (t : Task), JSON.create ts t = ts ++ [t]) ∧
    (∀ (ts : List Task) (t : Task) (ts' : List Task), JSON.update ts t = .ok ts' →
      ts.any (fun r => r.id == t.id) = true ∧
      ts' = ts.set (ts.findIdx (fun r => r.id == t.id)) t) ∧
    (∀ (ts : List Task) (id : String) (ts' : List Task), JSON.delete ts id = .ok ts' →
      ts' = ts.filter (fun r => r.id != id)) ∧
    (∀ (ts : List Task) (t : Task),
      (JSON.create ts t).filter (fun r => r.id != t.id) =
        ts.filter (fun r => r.id != t.id)) ∧
    (∀ (ts : List Task) (t : Task) (ts' : List Task), JSON.update ts t = .ok ts' →
      ts'.filter (fun r => r.id != t.id) = ts.filter (fun r => r.id != t.id)) ∧
    (∀ (ts : List Task) (id : String) (ts' : List Task), JSON.delete ts id = .ok ts' →
      ts'.filter (fun r => r.id != id) = ts.filter (fun r => r.id != id)) := by
  refine ⟨fun ts t => rfl, fun ts t ts' h => json_update_ok h,
    fun ts id ts' h => json_delete_ok h, ?_, fun ts t ts' h => json_update_filter_frame h, ?_⟩
  · intro ts t
    unfold JSON.create
    rw [List.filter_append]
    simp
  · intro ts id ts' h
    rw [json_delete_ok h, List.filter_filter]
    apply List.filter_congr
    intro x hx
    simp [Bool.and_self]

/-- Witness for C10 at the concrete store [tA, tC]: updating with tB
(id "t1") replaces the first record in place, deleting "t1" filters it
out, and in both cases the record tC with the other id survives in
order. -/
theorem C10_mutation_frame_witness :
    JSON.create [tA] tC = [tA, tC] ∧
    ([tA, tC].any (fun r => r.id == tB.id) = true ∧
      [tB, tC] = [tA, tC].set ([tA, tC].findIdx (fun r => r.id == tB.id)) tB) ∧
    [tC] = [tA, tC].filter (fun r => r.id != "t1") ∧
    [tB, tC].filter (fun r => r.id != tB.id) =
      [tA, tC].filter (fun r => r.id != tB.id) := by
  refine ⟨C10_mutation_frame.1 [tA] tC,
    C10_mutation_frame.2.1 [tA, tC] tB [tB, tC] rfl,
    C10_mutation_frame.2.2.1 [tA, tC] "t1" [tC] rfl,
    C10_mutation_frame.2.2.2.2.1 [tA, tC] tB [tB, tC] rfl⟩

/-! ### C6 : GetAll ordering per backend -/

/-- The createdAt-descending merge sort returns a list sorted by creation
time descending. -/
theorem sortByCreatedDesc_sorted (ts : List Task) :
    List.Sorted (fun a b : Task => b.createdAt ≤ a.createdAt) (sortByCreatedDesc ts) := by
  have h := @List.sorted_mergeSort Task
    (fun a b : Task => b.createdAt ≤ a.createdAt)
    (fun a b c h1 h2 => by
      simp only [decide_eq_true_eq] at h1 h2 ⊢
      exact Nat.le_trans h2 h1)
    (fun a b => by
      simp only [Bool.or_eq_true, decide_eq_true_eq]
      exact Nat.le_total b.createdAt a.createdAt)
    ts
  unfold sortByCreatedDesc
  exact h.imp (fun hab => by simpa using hab)

/-- The createdAt-descending merge sort is a permutation of its input. -/
theorem sortByCreatedDesc_perm (ts : List Task) :
    (sortByCreatedDesc ts).Perm ts :=
  List.mergeSort_perm ts _

/-- C6 counterexample: the SQLite GetAll issues a SELECT with no ORDER BY
clause, so on a table holding tA (createdAt 1) before tC (createdAt 2) it
returns the rows in table order — not ordered by creation time
descending, contradicting the claim for the relational backends. -/
theorem C6_counterexample :
    SQLite.getAll [tA, tC] = [tA, tC] ∧
    ¬ List.Sorted (fun a b : Task => b.createdAt ≤ a.createdAt)
      (SQLite.getAll [tA, tC]) := by
  refine ⟨rfl, ?_⟩
  intro hs
  have h := (List.sorted_cons.mp hs).1 tC (by simp)
  simp [tA, tC] at h

/-- C6 amended: the MySQL, PostgreSQL and MongoDB backends return GetAll
results ordered by creation time descending (a permutation of the stored
records); the file backend returns the stored list in insertion order;
the SQLite backend's GetAll issues no ORDER BY and returns rows in table
(insertion) order, not creation-time descending. -/
theorem C6_amended :
    (∀ db : List Task, (MySQL.getAll db).Perm db ∧
      List.Sorted (fun a b : Task => b.createdAt ≤ a.createdAt) (MySQL.getAll db)) ∧
    (∀ db : List Task, (Postgres.getAll db).Perm db ∧
      List.Sorted (fun a b : Task => b.createdAt ≤ a.createdAt) (Postgres.getAll db)) ∧
    (∀ db : List Task, (Mongo.getAll db).Perm db ∧
      List.Sorted (fun a b : Task => b.createdAt ≤ a.createdAt) (Mongo.getAll db)) ∧
    (∀ ts : List Task, JSON.getAll ts = ts) ∧
    (∀ db : List Task, SQLite.getAll db = db) :=
  ⟨fun db => ⟨sortByCreatedDesc_perm db, sortByCreatedDesc_sorted db⟩,
    fun db => ⟨sortByCreatedDesc_perm db, sortByCreatedDesc_sorted db⟩,
    fun db => ⟨sortByCreatedDesc_perm db, sortByCreatedDesc_sorted db⟩,
    fun ts => rfl, fun db => rfl⟩

/-! ### C7 : factory validation -/

/-- C7 counterexample: for the MySQL configuration badCfg with an empty
host, ValidateConfig reports the missing-host error, yet NewStorage —
the factory — does not fail fast with it: it proceeds straight to a
connection attempt.  The factory itself never validates; validation
happens only when a caller runs ValidateConfig separately. -/
theorem C7_counterexample :
    Factory.ValidateConfig badCfg = some .missingHost ∧
    (Factory.NewStorage badCfg).isConnectAttempt = true ∧
    Factory.NewStorage badCfg =
      .connectMySQL
        { host := "", port := 3306, user := "root", password := "p",
          dbName := "gotask", charset := "utf8mb4", parseTime := true,
          loc := "Local" } :=
  ⟨rfl, rfl, rfl⟩

/-- C7 amended: the required-field checks live in the separate
ValidateConfig function — file backends need a non-empty path, relational
backends need host, user, database name and a positive port, the document
backend needs URI, database and collection name, each failure yielding a
descriptive error; but NewStorage does not call ValidateConfig: it
dispatches directly on the backend kind, so for a client/server kind it
attempts construction/connection even when a required field is missing,
and fail-fast validation happens only when the caller invokes
ValidateConfig before NewStorage (as the server start-up code does). -/
theorem C7_amended :
    (∀ cfg : Factory.StorageConfig, cfg.typ = "json" ∨ cfg.typ = "sqlite" →
      (Factory.ValidateConfig cfg = none ↔ cfg.filePath ≠ "")) ∧
    (∀ cfg : Factory.StorageConfig, cfg.typ = "postgres" ∨ cfg.typ = "mysql" →
      (Factory.ValidateConfig cfg = none ↔
        cfg.host ≠ "" ∧ cfg.user ≠ "" ∧ cfg.dbName ≠ "" ∧ 0 < cfg.port)) ∧
    (∀ cfg : Factory.StorageConfig, cfg.typ = "mongodb" →
      (Factory.ValidateConfig cfg = none ↔
        cfg.uri ≠ "" ∧ cfg.dbName ≠ "" ∧ cfg.collection ≠ "")) ∧
    (∀ cfg : Factory.StorageConfig,
      cfg.typ = "postgres" ∨ cfg.typ = "mysql" ∨ cfg.typ = "mongodb" →
      (Factory.NewStorage cfg).isConnectAttempt = true) ∧
    (∀ cfg : Factory.StorageConfig, cfg.typ = "json" →
      Factory.NewStorage cfg = .buildJSON cfg.filePath) ∧
    (∀ cfg : Factory.StorageConfig, cfg.typ = "sqlite" →
      Factory.NewStorage cfg = .buildSQLite cfg.filePath) := by
  refine ⟨?_, ?_, ?_, ?_, ?_, ?_⟩
  · intro cfg h
    rcases h with h | h <;>
      simp [Factory.ValidateConfig, h]
  · intro cfg h
    rcases h with h | h <;>
    · simp only [Factory.ValidateConfig, h]
      constructor
      · intro hv
        by_cases h1 : cfg.host == ""
        · simp [h1] at hv
        · by_cases h2 : cfg.user == ""
          · simp [h1, h2] at hv
          · by_cases h3 : cfg.dbName == ""
            · simp [h1, h2, h3] at hv
            · by_cases h4 : cfg.port ≤ 0
              · simp [h1, h2, h3, h4] at hv
              · refine ⟨by simpa using h1, by simpa using h2,
                  by simpa using h3, by omega⟩
      · rintro ⟨h1, h2, h3, h4⟩
        have b1 : (cfg.host == "") = false := by simpa using h1
        have b2 : (cfg.user == "") = false := by simpa using h2
        have b3 : (cfg.dbName == "") = false := by simpa using h3
        have b4 : ¬ cfg.port ≤ 0 := by omega
        simp [b1, b2, b3, b4]
  · intro cfg h
    simp only [Factory.ValidateConfig, h]
    constructor
    · intro hv
      by_cases h1 : cfg.uri == ""
      · simp [h1] at hv
      · by_cases h2 : cfg.dbName == ""
        · simp [h1, h2] at hv
        · by_cases h3 : cfg.collection == ""
          · simp [h1, h2, h3] at hv
          · exact ⟨by simpa using h1, by simpa using h2, by simpa using h3⟩
    · rintro ⟨h1, h2, h3⟩
      have b1 : (cfg.uri == "") = false := by simpa using h1
      have b2 : (cfg.dbName == "") = false := by simpa using h2
      have b3 : (cfg.collection == "") = false := by simpa using h3
      simp [b1, b2, b3]
  · intro cfg h
    rcases h with h | h | h <;>
      simp [Factory.NewStorage, h, Factory.FactoryAction.isConnectAttempt]
  · intro cfg h
    simp [Factory.NewStorage, h]
  · intro cfg h
    simp [Factory.NewStorage, h]

/-- Witness for C7 amended: badCfg (MySQL kind, empty host) is rejected by
ValidateConfig but NewStorage still dispatches to a connection attempt; a
JSON configuration with an empty path is likewise rejected by the
validator while the factory would build the backend directly. -/
theorem C7_amended_witness :
    (Factory.ValidateConfig badCfg = none ↔
      badCfg.host ≠ "" ∧ badCfg.user ≠ "" ∧ badCfg.dbName ≠ "" ∧
        0 < badCfg.port) ∧
    (Factory.NewStorage badCfg).isConnectAttempt = true ∧
    Factory.NewStorage { badCfg with typ := "json" } = .buildJSON "" := by
  refine ⟨C7_amended.2.1 badCfg (Or.inr rfl),
    C7_amended.2.2.2.1 badCfg (Or.inr (Or.inl rfl)), ?_⟩
  have h := C7_amended.2.2.2.2.1 { badCfg with typ := "json" } rfl
  simpa [badCfg] using h

/-! ### C8 : MongoDB per-query timeout -/

/-- C8 counterexample: with the configured query timeout of 7 seconds
(mcfg), the MongoDB Create operation still bounds its context with the
hard-coded 5 seconds, not the configured value — contradicting the claim
that the timeout applied to each operation equals the configured
QueryTimeout. -/
theorem C8_counterexample :
    Mongo.opTimeout mcfg .create = 5 * Mongo.second ∧
    mcfg.queryTimeout = 7 * Mongo.second ∧
    Mongo.opTimeout mcfg .create ≠ mcfg.queryTimeout := by
  refine ⟨rfl, rfl, by decide⟩

/-- C8 amended: each MongoDB operation bounds its execution with a
hard-coded timeout — 5 seconds for Create, GetByID, Update and Delete and
10 seconds for GetAll — independent of the configured QueryTimeout (which
is carried in the configuration but never applied to queries); only the
connect timeout used by the constructor comes from the configuration. -/
theorem C8_amended :
    (∀ cfg : Mongo.Config,
      Mongo.opTimeout cfg .create = 5 * Mongo.second ∧
      Mongo.opTimeout cfg .getAll = 10 * Mongo.second ∧
      Mongo.opTimeout cfg .getByID = 5 * Mongo.second ∧
      Mongo.opTimeout cfg .update = 5 * Mongo.second ∧
      Mongo.opTimeout cfg .delete = 5 * Mongo.second) ∧
    (∀ (cfg cfg' : Mongo.Config) (op : Mongo.Op),
      Mongo.opTimeout cfg op = Mongo.opTimeout cfg' op) ∧
    (∀ cfg : Mongo.Config, Mongo.connectTimeoutUsed cfg = cfg.connectTimeout) :=
  ⟨fun cfg => ⟨rfl, rfl, rfl, rfl, rfl⟩,
    fun cfg cfg' op => by cases op <;> rfl,
    fun cfg => rfl⟩

end GoTask
